import Mathlib

/-!
Verification of the Voy registration and ride models
(`authentication/models.py`, `rides/models.py`).

Time is modelled in whole seconds as `Int`; `timezone.now()` becomes an
explicit `now : Int` argument.  The 5-minute registration grace window is
300 seconds and the 10-minute OTP window is 600 seconds.  Django's
persistent store is modelled as a Lean list of records; queryset
`filter`/`delete`/`update` calls become list operations.
-/

/-- OTP purposes, from `OTP.TYPE_CHOICES` in `authentication/models.py`. -/
inductive OTPType where
  | EMAIL
  | PASSWORD_RESET
  | PHONE
deriving DecidableEq, Repr

/-- One row of the `OTP` table (`authentication/models.py`, class `OTP`).
Users are identified by an abstract numeric id (the foreign key). -/
structure OTPRec where
  user : Nat
  code : String
  created_at : Int
  is_verified : Bool
  attempts : Nat
  otype : OTPType
deriving DecidableEq, Repr

/-- Method `OTP.is_valid`: `timezone.now() <= created_at + 10 minutes`, not yet
verified, and fewer than 3 attempts. -/
def OTPRec.is_valid (o : OTPRec) (now : Int) : Bool :=
  decide (now ≤ o.created_at + 600) && !o.is_verified && decide (o.attempts < 3)

/-- The queryset update in `OTP.create_otp_for_user`:
`filter(user=user, is_verified=False, type=otp_type).update(is_verified=True)`
applied to a single row. -/
def markSuperseded (user : Nat) (otype : OTPType) (o : OTPRec) : OTPRec :=
  if o.user = user ∧ o.is_verified = false ∧ o.otype = otype then
    { o with is_verified := true }
  else o

/-- The generated code `"".join([str(random.randint(0, 9)) for _ in range(6)])`:
six random digits, supplied here as an explicit digit source `f`. -/
def otpCode (f : Fin 6 → Fin 10) : String :=
  String.mk ((List.finRange 6).map fun i => Nat.digitChar (f i).val)

/-- Method `OTP.create_otp_for_user`: first mark all previous unverified OTPs of the
same user and purpose as verified, then create a fresh row (model defaults:
`is_verified=False`, `attempts=0`, `created_at=now`).  Returns the new row and
the updated table. -/
def create_otp_for_user (store : List OTPRec) (user : Nat) (otype : OTPType)
    (f : Fin 6 → Fin 10) (now : Int) : OTPRec × List OTPRec :=
  let marked := store.map (markSuperseded user otype)
  let newOtp : OTPRec :=
    { user := user, code := otpCode f, created_at := now,
      is_verified := false, attempts := 0, otype := otype }
  (newOtp, marked ++ [newOtp])

/-- Redemption outcomes named by the spec (§4.2). -/
inductive RedeemResult where
  | ok
  | wrongCode
  | expired
  | tooManyAttempts
deriving DecidableEq, Repr

/-- Modelled from the spec: the OTP redemption operation (`redeem`) lives in
view code that is not under `src/`; only `OTP.is_valid` is.  Spec §4.2:
"increments `attempts` on every call including wrong guesses; becomes
permanently invalid once `attempts >= 3`, regardless of subsequent correct
guesses.  Valid only within 10 minutes of creation and while unverified."
A row that is already `is_verified` is reported as `expired` (the spec gives
the failure set `WrongCode | Expired | TooManyAttempts` and no dedicated
variant for a superseded row). -/
def redeem (o : OTPRec) (candidate : String) (now : Int) : RedeemResult × OTPRec :=
  let o' := { o with attempts := o.attempts + 1 }
  if 3 ≤ o.attempts then (.tooManyAttempts, o')
  else if ¬ (now ≤ o.created_at + 600) then (.expired, o')
  else if o.is_verified then (.expired, o')
  else if candidate = o.code then (.ok, o')
  else (.wrongCode, o')

/-- A digit character rendered by `Nat.digitChar` from a value below 10 is a
decimal digit. -/
theorem digitChar_isDigit (d : Fin 10) : (Nat.digitChar d.val).isDigit = true := by
  fin_cases d <;> decide

/-- After the superseding pass of `create_otp_for_user`, no row of the old
table still matches (same user, same purpose, unverified). -/
theorem filter_marked_nil (store : List OTPRec) (user : Nat) (otype : OTPType) :
    (store.map (markSuperseded user otype)).filter
      (fun o => o.user == user && o.otype == otype && !o.is_verified) = [] := by
  induction store with
  | nil => rfl
  | cons o rest ih =>
      simp only [List.map_cons, List.filter_cons]
      rw [ih]
      unfold markSuperseded
      by_cases h : o.user = user ∧ o.is_verified = false ∧ o.otype = otype
      · simp [h]
      · rw [if_neg h]
        push_neg at h
        by_cases hu : o.user = user
        · by_cases hv : o.is_verified = false
          · simp [h hu hv]
          · simp at hv
            simp [hv]
        · simp [hu]

/-- Claim C4: after `create_otp_for_user(user, purpose)`, every OTP of that
(user, purpose) that existed before the call and was unverified is marked
`is_verified=true`, and exactly one unverified OTP of that (user, purpose)
remains: the newly created one, with `attempts = 0` and a 6-digit numeric
code. -/
theorem otp_single_live (store : List OTPRec) (user : Nat) (otype : OTPType)
    (f : Fin 6 → Fin 10) (now : Int) :
    (∀ o ∈ (create_otp_for_user store user otype f now).2.dropLast,
        o.user = user → o.otype = otype → o.is_verified = true) ∧
    (create_otp_for_user store user otype f now).2.filter
        (fun o => o.user == user && o.otype == otype && !o.is_verified)
      = [(create_otp_for_user store user otype f now).1] ∧
    (create_otp_for_user store user otype f now).1.attempts = 0 ∧
    (create_otp_for_user store user otype f now).1.is_verified = false ∧
    (create_otp_for_user store user otype f now).1.code.length = 6 ∧
    (∀ c ∈ (create_otp_for_user store user otype f now).1.code.data, c.isDigit) := by
  unfold create_otp_for_user
  simp only [List.dropLast_concat]
  refine ⟨?_, ?_, trivial, trivial, ?_, ?_⟩
  · intro o ho hu ht
    rcases List.mem_map.mp ho with ⟨p, _, hp⟩
    subst hp
    unfold markSuperseded
    by_cases h : p.user = user ∧ p.is_verified = false ∧ p.otype = otype
    · simp [h]
    · rw [if_neg h]
      unfold markSuperseded at hu ht
      rw [if_neg h] at hu ht
      push_neg at h
      by_cases hv : p.is_verified = false
      · exact absurd ht (h hu hv)
      · simpa using hv
  · rw [List.filter_append, filter_marked_nil]
    simp [otpCode]
  · simp [otpCode, String.length]
  · intro c hc
    simp only [otpCode, String.data] at hc
    rcases List.mem_map.mp hc with ⟨i, _, hi⟩
    subst hi
    exact digitChar_isDigit (f i)

/-- Witness for C4: a concrete run with one stale OTP in the table. -/
theorem otp_single_live_witness :
    (create_otp_for_user
        [{ user := 7, code := "123456", created_at := 0,
           is_verified := false, attempts := 1, otype := .EMAIL }]
        7 .EMAIL (fun _ => ⟨4, by decide⟩) 50).2.filter
        (fun o => o.user == 7 && o.otype == OTPType.EMAIL && !o.is_verified)
      = [(create_otp_for_user
        [{ user := 7, code := "123456", created_at := 0,
           is_verified := false, attempts := 1, otype := .EMAIL }]
        7 .EMAIL (fun _ => ⟨4, by decide⟩) 50).1] :=
  (otp_single_live
    [{ user := 7, code := "123456", created_at := 0,
       is_verified := false, attempts := 1, otype := .EMAIL }]
    7 .EMAIL (fun _ => ⟨4, by decide⟩) 50).2.1

/-- Claim C6: `is_valid` returns true iff the OTP is unverified, has fewer
than 3 attempts, and at most 10 minutes (600 seconds) have elapsed since
`created_at`. -/
theorem is_valid_iff (o : OTPRec) (now : Int) :
    o.is_valid now = true ↔
      o.is_verified = false ∧ o.attempts < 3 ∧ now - o.created_at ≤ 600 := by
  unfold OTPRec.is_valid
  constructor
  · intro h
    simp only [Bool.and_eq_true, Bool.not_eq_true', decide_eq_true_eq] at h
    exact ⟨h.1.2, h.2, by omega⟩
  · intro ⟨h1, h2, h3⟩
    simp only [Bool.and_eq_true, Bool.not_eq_true', decide_eq_true_eq]
    exact ⟨⟨by omega, h1⟩, h2⟩

/-- A `redeem` call inside the validity window with a wrong candidate returns
`WrongCode` and increments `attempts`. -/
theorem redeem_wrong (o : OTPRec) (c : String) (now : Int)
    (h3 : o.attempts < 3) (hts : now ≤ o.created_at + 600)
    (hv : o.is_verified = false) (hc : c ≠ o.code) :
    redeem o c now = (.wrongCode, { o with attempts := o.attempts + 1 }) := by
  unfold redeem
  rw [if_neg (by omega), if_neg (by omega), hv]
  simp [hc]

/-- Claim C5: an OTP whose attempts counter has reached 3 is permanently
invalid (`is_valid` is false at every instant), and — with `redeem` modelled
from the spec — three wrong guesses followed by the correct code still fail
with `TooManyAttempts`. -/
theorem attempts_exhausted (o : OTPRec) (now now2 : Int) (c : String)
    (hv : o.is_verified = false) (ha : o.attempts = 0)
    (ht : now ≤ o.created_at + 600) (hc : c ≠ o.code) :
    (∀ p : OTPRec, 3 ≤ p.attempts → p.is_valid now2 = false) ∧
    (redeem o c now).1 = .wrongCode ∧
    (redeem (redeem o c now).2 c now).1 = .wrongCode ∧
    (redeem (redeem (redeem o c now).2 c now).2 c now).1 = .wrongCode ∧
    (redeem (redeem (redeem (redeem o c now).2 c now).2 c now).2
        o.code now).1 = .tooManyAttempts := by
  have e1 : redeem o c now = (.wrongCode, { o with attempts := o.attempts + 1 }) :=
    redeem_wrong o c now (by omega) ht hv hc
  have e2 : redeem { o with attempts := o.attempts + 1 } c now
      = (.wrongCode, { o with attempts := o.attempts + 1 + 1 }) :=
    redeem_wrong _ c now (by show _ + 1 < 3 ; omega) ht hv hc
  have e3 : redeem { o with attempts := o.attempts + 1 + 1 } c now
      = (.wrongCode, { o with attempts := o.attempts + 1 + 1 + 1 }) :=
    redeem_wrong _ c now (by show _ + 1 < 3 ; omega) ht hv hc
  have e4 : (redeem { o with attempts := o.attempts + 1 + 1 + 1 } o.code now).1
      = .tooManyAttempts := by
    unfold redeem
    rw [if_pos (show 3 ≤ _ + 1 + 1 + 1 by omega)]
  refine ⟨?_, ?_, ?_, ?_, ?_⟩
  · intro p hp
    unfold OTPRec.is_valid
    simp only [Bool.and_eq_false_eq_eq_false_or_eq_false, decide_eq_false_iff_not]
    right
    omega
  · rw [e1]
  · simp only [e1, e2]
  · simp only [e1, e2, e3]
  · simp only [e1, e2, e3, e4]

/-- Witness for C5: a concrete fresh OTP, three wrong guesses, then the
correct code. -/
theorem attempts_exhausted_witness :
    (∀ p : OTPRec, 3 ≤ p.attempts → p.is_valid 9999 = false) ∧
    (redeem
      { user := 1, code := "111111", created_at := 0,
        is_verified := false, attempts := 0, otype := .EMAIL } "000000" 10).1
      = .wrongCode ∧
    (redeem (redeem
      { user := 1, code := "111111", created_at := 0,
        is_verified := false, attempts := 0, otype := .EMAIL } "000000" 10).2
      "000000" 10).1 = .wrongCode ∧
    (redeem (redeem (redeem
      { user := 1, code := "111111", created_at := 0,
        is_verified := false, attempts := 0, otype := .EMAIL } "000000" 10).2
      "000000" 10).2 "000000" 10).1 = .wrongCode ∧
    (redeem (redeem (redeem (redeem
      { user := 1, code := "111111", created_at := 0,
        is_verified := false, attempts := 0, otype := .EMAIL } "000000" 10).2
      "000000" 10).2 "000000" 10).2 "111111" 10).1 = .tooManyAttempts :=
  attempts_exhausted
    { user := 1, code := "111111", created_at := 0,
      is_verified := false, attempts := 0, otype := .EMAIL }
    10 9999 "000000" rfl rfl (by decide) (by decide)

/-- Python's `round` to an integer: round-half-to-even (banker's rounding),
on exact rational values. -/
def pyRoundInt (x : ℚ) : ℤ :=
  let f := ⌊x⌋
  let r := x - f
  if r < 1/2 then f
  else if 1/2 < r then f + 1
  else if f % 2 = 0 then f else f + 1

/-- Python's `round(x, 2)`: round to 2 decimal places. The Python source
computes on IEEE doubles; the rationals appearing in the claims under
verification (1.2, 2.34 and their inputs) are exactly the values the float
computation produces, so the rational model agrees with the code there. -/
def pyRound2 (x : ℚ) : ℚ :=
  (pyRoundInt (100 * x) : ℚ) / 100

/-- Rounding `pyRoundInt` is the identity on integers. -/
theorem pyRoundInt_intCast (n : ℤ) : pyRoundInt (n : ℚ) = n := by
  unfold pyRoundInt
  rw [Int.floor_intCast]
  norm_num

/-- One row of the `User` table (`authentication/models.py`, class `User`),
restricted to the fields the claims under verification touch.  `created_at`
is the `auto_now_add` timestamp.  Credential hashing, profile images and the
driver fields are external collaborators or unused by the claims. -/
structure UserRecord where
  email : String
  phone_number : String
  created_at : Int
  is_active : Bool
  email_verified : Bool
  phone_verified : Bool
  registration_pending : Bool
  is_staff : Bool
  is_superuser : Bool
  rating_as_driver : ℚ
  rating_as_passenger : ℚ
deriving DecidableEq, Repr

/-- Method `User.update_rating(new_rating, as_driver)`: exponential moving average
`round(0.7 * old + 0.3 * new, 2)` written to the role-specific field. -/
def update_rating (u : UserRecord) (new_rating : ℚ) (as_driver : Bool) : UserRecord :=
  if as_driver then
    { u with rating_as_driver :=
        pyRound2 (7/10 * u.rating_as_driver + 3/10 * new_rating) }
  else
    { u with rating_as_passenger :=
        pyRound2 (7/10 * u.rating_as_passenger + 3/10 * new_rating) }

/-- Claim C7: `update_rating` sets the role-specific rating to
`round(0.7*old + 0.3*sample, 2)` and leaves the other role's rating
unchanged; from 0.0, sample 4 yields 1.2, then sample 5 yields 2.34. -/
theorem update_rating_ema (u : UserRecord) (s : ℚ) (h0 : u.rating_as_driver = 0) :
    ((update_rating u s true).rating_as_driver
        = pyRound2 (7/10 * u.rating_as_driver + 3/10 * s) ∧
      (update_rating u s true).rating_as_passenger = u.rating_as_passenger) ∧
    ((update_rating u s false).rating_as_passenger
        = pyRound2 (7/10 * u.rating_as_passenger + 3/10 * s) ∧
      (update_rating u s false).rating_as_driver = u.rating_as_driver) ∧
    (update_rating u 4 true).rating_as_driver = 12/10 ∧
    (update_rating (update_rating u 4 true) 5 true).rating_as_driver = 234/100 := by
  have hfirst : pyRound2 (7/10 * u.rating_as_driver + 3/10 * 4) = 12/10 := by
    rw [h0]
    unfold pyRound2
    rw [show (100 : ℚ) * (7/10 * 0 + 3/10 * 4) = ((120 : ℤ) : ℚ) by norm_num,
      pyRoundInt_intCast]
    norm_num
  refine ⟨⟨rfl, rfl⟩, ⟨rfl, rfl⟩, hfirst, ?_⟩
  show pyRound2 (7/10 * pyRound2 (7/10 * u.rating_as_driver + 3/10 * 4)
      + 3/10 * 5) = 234/100
  rw [hfirst]
  unfold pyRound2
  rw [show (100 : ℚ) * (7/10 * (12/10) + 3/10 * 5) = ((234 : ℤ) : ℚ) by norm_num,
    pyRoundInt_intCast]
  norm_num

/-- Witness for C7: a concrete user with zero driver rating. -/
theorem update_rating_ema_witness :
    (update_rating (update_rating
        { email := "a@x.com", phone_number := "111", created_at := 0,
          is_active := true, email_verified := true, phone_verified := true,
          registration_pending := false, is_staff := false,
          is_superuser := false, rating_as_driver := 0,
          rating_as_passenger := 0 } 4 true) 5 true).rating_as_driver
      = 234/100 :=
  (update_rating_ema
    { email := "a@x.com", phone_number := "111", created_at := 0,
      is_active := true, email_verified := true, phone_verified := true,
      registration_pending := false, is_staff := false,
      is_superuser := false, rating_as_driver := 0,
      rating_as_passenger := 0 } 4 rfl).2.2.2

/-- Python `str.strip()` on a character list: drop leading and trailing
whitespace (ASCII whitespace; the addresses in this file are ASCII, where
Python and Lean agree). -/
def trimChars (cs : List Char) : List Char :=
  ((cs.dropWhile Char.isWhitespace).reverse.dropWhile Char.isWhitespace).reverse

/-- Split a character list at its LAST `'@'` (Python `rsplit("@", 1)`):
returns the part before it and the part after it.  Only meaningful when the
list contains an `'@'`. -/
def splitAtLastAmp (cs : List Char) : List Char × List Char :=
  let r := cs.reverse
  let domainRev := r.takeWhile (fun c => c != '@')
  let nameRev := (r.dropWhile (fun c => c != '@')).drop 1
  (nameRev.reverse, domainRev.reverse)

/-- Method `BaseUserManager.normalize_email`: strip, split at the last `'@'`, and
lower-case the domain part; an address without `'@'` is returned unchanged.
(`Char.toLower` stands in for Python `str.lower`; the addresses in this file
are ASCII, where the two agree.) -/
def normalizeEmail (email : String) : String :=
  let t := trimChars email.data
  if t.contains '@' then
    let nd := splitAtLastAmp t
    String.mk (nd.1 ++ '@' :: nd.2.map Char.toLower)
  else email

/-- Modelled abstraction of Django's `EmailValidator`, which `full_clean`
runs on the `EmailField`: a nonempty local part and a nonempty domain around
the last `'@'`, within the default 254-character bound.  The claims under
verification do not depend on the validator's finer regex rules. -/
def emailFormatOk (s : String) : Bool :=
  let cs := s.data
  cs.contains '@' &&
    (let nd := splitAtLastAmp cs
     !nd.1.isEmpty && !nd.2.isEmpty) &&
    decide (s.length ≤ 254)

/-- The keyword arguments (`**extra_fields`) of `create_user`; `none` means
the caller did not pass the key, so `setdefault` / the model default applies.
`phone_number` is a plain model field with no default (empty when absent). -/
structure ExtraFields where
  phone_number : String
  registration_pending : Option Bool
  is_active : Option Bool
  is_staff : Option Bool
  is_superuser : Option Bool
  email_verified : Option Bool
  phone_verified : Option Bool
deriving DecidableEq, Repr

/-- The `extra_fields` value with no keyword arguments passed. -/
def noExtras : ExtraFields :=
  ⟨"", none, none, none, none, none, none⟩

/-- Which verification the blocking pending registration still needs
(`create_user` reports email when `email_verified` is false, otherwise
phone). -/
inductive PendingKind where
  | email
  | phone
deriving DecidableEq, Repr

/-- The failure outcomes of `create_user` / `create_superuser`: the explicit
`ValueError`s of `CustomUserManager` and the `ValidationError`s raised by
`user.full_clean()`. -/
inductive CreateError where
  | emailRequired
  | registrationInFlight (remainingSeconds : Int) (kind : PendingKind)
  | invalidEmailFormat
  | blankPhone
  | phoneTooLong
  | duplicateEmail
  | duplicateConfirmedPhone
  | mustBeStaff
  | mustBeSuperuser
deriving DecidableEq, Repr

/-- Python truthiness of an optional string argument (`if email:`): present
and nonempty. -/
def optTruthy (o : Option String) : Bool :=
  o.getD "" != ""

/-- The queryset predicate of `User.cleanup_expired_registrations`:
`Q(registration_pending=True, created_at__lt=now - 5min)`, or-ed — when an
email or phone argument is given — with `Q(email=email,
registration_pending=True)` and/or `Q(phone_number=phone_number,
registration_pending=True)`. -/
def matchesCleanup (now : Int) (email phone : Option String) (r : UserRecord) : Bool :=
  let base := r.registration_pending && decide (r.created_at < now - 300)
  if optTruthy email || optTruthy phone then
    let se := optTruthy email && r.email == email.getD "" && r.registration_pending
    let sp := optTruthy phone && r.phone_number == phone.getD "" && r.registration_pending
    base || se || sp
  else base

/-- Method `User.cleanup_expired_registrations(email?, phone_number?)`: delete every
row matching the combined query and return the remaining table together with
the deleted count. -/
def cleanup_expired_registrations (store : List UserRecord) (now : Int)
    (email phone_number : Option String) : List UserRecord × Nat :=
  ((store.filter fun r => !(matchesCleanup now email phone_number r)),
   (store.filter (matchesCleanup now email phone_number)).length)

/-- Validation `user.full_clean()` against the current table, reporting the first
failure (Django aggregates all failures into one `ValidationError`; which
ones fire is what matters here).  Field validation first (email format,
`phone_number` with `blank=False` and `max_length=15`), then
`validate_unique` for the unique `email` column, then the conditional
constraints of `User.Meta`: a conditional `UniqueConstraint` is only
enforced when the new instance itself satisfies the condition
(`registration_pending=False`), and `unique_verified_email` is subsumed by
the unique `email` column. -/
def full_clean (table : List UserRecord) (u : UserRecord) : Option CreateError :=
  if !(emailFormatOk u.email) then some .invalidEmailFormat
  else if u.phone_number == "" then some .blankPhone
  else if decide (15 < u.phone_number.length) then some .phoneTooLong
  else if table.any (fun r => r.email == u.email) then some .duplicateEmail
  else if !u.registration_pending &&
      table.any (fun r => !r.registration_pending && r.phone_number == u.phone_number) then
    some .duplicateConfirmedPhone
  else none

/-- Method `CustomUserManager.create_user(email, **extra_fields)`, sequential
semantics.  Steps, in source order: reject an empty email; normalize it;
run `cleanup_expired_registrations(email=email)`; look for an unexpired
pending row with that email (`.first()` under the model ordering
`-created_at`, i.e. the most recent); on a hit raise the
verification-pending error with the remaining wait; otherwise build the row
(`setdefault`: `registration_pending=True`, `is_active=False`), run
`full_clean`, and save.  `User.save` additionally deletes expired pending
rows colliding on email or phone before inserting a new pending row.
Returns the outcome and the resulting table. -/
def create_user (store : List UserRecord) (now : Int) (email : String)
    (extra : ExtraFields) : Except CreateError UserRecord × List UserRecord :=
  if email == "" then (.error .emailRequired, store)
  else
    let e := normalizeEmail email
    let store1 := (cleanup_expired_registrations store now (some e) none).1
    let blocking := store1.filter fun r =>
      r.email == e && r.registration_pending && decide (now - 300 < r.created_at)
    match blocking.argmax (fun r => r.created_at) with
    | some pu =>
        (.error (.registrationInFlight (pu.created_at + 300 - now)
          (if !pu.email_verified then .email else .phone)), store1)
    | none =>
        let u : UserRecord :=
          { email := e
            phone_number := extra.phone_number
            created_at := now
            is_active := extra.is_active.getD false
            email_verified := extra.email_verified.getD false
            phone_verified := extra.phone_verified.getD false
            registration_pending := extra.registration_pending.getD true
            is_staff := extra.is_staff.getD false
            is_superuser := extra.is_superuser.getD false
            rating_as_driver := 0
            rating_as_passenger := 0 }
        match full_clean store1 u with
        | some err => (.error err, store1)
        | none =>
            let store2 :=
              if u.registration_pending then
                store1.filter fun r => !(r.registration_pending
                  && (r.email == u.email || r.phone_number == u.phone_number)
                  && decide (r.created_at < now - 300))
              else store1
            (.ok u, store2 ++ [u])

/-- Method `CustomUserManager.create_superuser`: `setdefault` `is_staff`,
`is_superuser` and `is_active` to true, insist on the first two, then
delegate to `create_user`. -/
def create_superuser (store : List UserRecord) (now : Int) (email : String)
    (extra : ExtraFields) : Except CreateError UserRecord × List UserRecord :=
  let extra1 := { extra with
    is_staff := some (extra.is_staff.getD true)
    is_superuser := some (extra.is_superuser.getD true)
    is_active := some (extra.is_active.getD true) }
  if extra1.is_staff ≠ some true then (.error .mustBeStaff, store)
  else if extra1.is_superuser ≠ some true then (.error .mustBeSuperuser, store)
  else create_user store now email extra1

/-- The row-level uniqueness demanded by the `User` table's declarations:
the `email` column is declared `unique=True`, so emails are pairwise
distinct across ALL rows; the conditional constraint `unique_verified_phone`
makes phone numbers pairwise distinct across rows with
`registration_pending=False` (and `unique_verified_email` is subsumed by the
unique column). -/
def dbOk (s : List UserRecord) : Prop :=
  s.Pairwise fun a b =>
    a.email ≠ b.email ∧
    (a.registration_pending = false → b.registration_pending = false →
      a.phone_number ≠ b.phone_number)

instance (s : List UserRecord) : Decidable (dbOk s) := by
  unfold dbOk
  infer_instance

/-- States of the `User` table reachable through the store: every write
(insert of a row, update of a row in place) must satisfy the declared
uniqueness constraints to commit, while deletes are unrestricted. -/
inductive ReachableStore : List UserRecord → Prop where
  | empty : ReachableStore []
  | insert (s : List UserRecord) (r : UserRecord) :
      ReachableStore s → dbOk (r :: s) → ReachableStore (r :: s)
  | delete (s : List UserRecord) (p : UserRecord → Bool) :
      ReachableStore s → ReachableStore (s.filter p)
  | update (s1 s2 : List UserRecord) (r r' : UserRecord) :
      ReachableStore (s1 ++ r :: s2) → dbOk (s1 ++ r' :: s2) →
      ReachableStore (s1 ++ r' :: s2)

/-- Every reachable table state satisfies the declared uniqueness
constraints. -/
theorem reachable_dbOk {s : List UserRecord} (h : ReachableStore s) : dbOk s := by
  induction h with
  | empty => exact List.Pairwise.nil
  | insert s r _ hok _ => exact hok
  | delete s p _ ih => exact ih.sublist (List.filter_sublist s)
  | update s1 s2 r r' _ hok _ => exact hok

/-- A pending registration row created 60 seconds before the reference
instant 1000, i.e. well inside the 5-minute grace window. -/
def freshPending : UserRecord :=
  { email := "a@x.com", phone_number := "111", created_at := 940,
    is_active := false, email_verified := false, phone_verified := false,
    registration_pending := true, is_staff := false, is_superuser := false,
    rating_as_driver := 0, rating_as_passenger := 0 }

/-- A second pending row for the same email as `freshPending`. -/
def freshPendingDup : UserRecord :=
  { email := "a@x.com", phone_number := "222", created_at := 950,
    is_active := false, email_verified := false, phone_verified := false,
    registration_pending := true, is_staff := false, is_superuser := false,
    rating_as_driver := 0, rating_as_passenger := 0 }

/-- Two pending rows sharing a phone number but not an email. -/
def pendPhoneA : UserRecord :=
  { email := "p1@x.com", phone_number := "777", created_at := 940,
    is_active := false, email_verified := false, phone_verified := false,
    registration_pending := true, is_staff := false, is_superuser := false,
    rating_as_driver := 0, rating_as_passenger := 0 }

/-- See `pendPhoneA`. -/
def pendPhoneB : UserRecord :=
  { email := "p2@x.com", phone_number := "777", created_at := 950,
    is_active := false, email_verified := false, phone_verified := false,
    registration_pending := true, is_staff := false, is_superuser := false,
    rating_as_driver := 0, rating_as_passenger := 0 }

/-- Counterexample for claim C2: two pending rows with the same email are
NOT a reachable table state — the `email` column is declared `unique=True`
over all rows, so pending rows cannot "freely collide" on an email. -/
theorem pending_email_collision_unreachable :
    ¬ ReachableStore [freshPending, freshPendingDup] :=
  fun h => absurd (reachable_dbOk h) (by decide)

/-- Claim C2 (amended): every reachable state has pairwise-distinct emails
across all rows (hence at most one non-pending row per email, and pending
rows can never collide on email), and pairwise-distinct phone numbers across
non-pending rows; pending rows may still collide on a phone number, as the
reachable state `[pendPhoneA, pendPhoneB]` shows. -/
theorem reachable_store_uniqueness (s : List UserRecord) (h : ReachableStore s) :
    dbOk s ∧
    ReachableStore [pendPhoneA, pendPhoneB] ∧
    pendPhoneA.registration_pending = true ∧
    pendPhoneB.registration_pending = true ∧
    pendPhoneA.phone_number = pendPhoneB.phone_number ∧
    pendPhoneA ≠ pendPhoneB :=
  ⟨reachable_dbOk h,
   .insert [pendPhoneB] pendPhoneA (.insert [] pendPhoneB .empty (by decide))
     (by decide),
   rfl, rfl, rfl, by decide⟩

/-- Witness for C2: the empty table is reachable. -/
theorem reachable_store_uniqueness_witness :
    dbOk ([] : List UserRecord) ∧
    ReachableStore [pendPhoneA, pendPhoneB] ∧
    pendPhoneA.registration_pending = true ∧
    pendPhoneB.registration_pending = true ∧
    pendPhoneA.phone_number = pendPhoneB.phone_number ∧
    pendPhoneA ≠ pendPhoneB :=
  reachable_store_uniqueness [] .empty

/-- Claim C3: on the failing input, `cleanup_expired_registrations` with an
email argument deletes even the most recent, unexpired pending row matching
that email (the table's only matching row, created 60 seconds ago), and
reports 1 deletion — the claim says a most-recent matching row must be
spared, i.e. the result should have been the unchanged table and count 0. -/
theorem cleanup_deletes_most_recent_pending :
    cleanup_expired_registrations [freshPending] 1000 (some "a@x.com") none
      = ([], 1) ∧
    freshPending.registration_pending = true ∧
    1000 - 300 < freshPending.created_at ∧
    freshPending.email = "a@x.com" :=
  ⟨by decide, rfl, by decide, rfl⟩

deriving instance DecidableEq for Except

/-- The row `create_user` inserts in the run of claim C1's failing input. -/
def freshPendingReplacement : UserRecord :=
  { email := "a@x.com", phone_number := "222", created_at := 1000,
    is_active := false, email_verified := false, phone_verified := false,
    registration_pending := true, is_staff := false, is_superuser := false,
    rating_as_driver := 0, rating_as_passenger := 0 }

/-- Claim C1: on the failing input — a table holding exactly one unexpired
pending row with the requested email — `create_user` does NOT fail with the
verification-pending (`RegistrationInFlight`) error: the preceding
`cleanup_expired_registrations(email=...)` call deletes every pending row
with that email regardless of age, so the blocking check finds nothing and a
fresh pending row is inserted instead. -/
theorem create_user_overwrites_live_pending :
    create_user [freshPending] 1000 "a@x.com"
        { noExtras with phone_number := "222" }
      = (.ok freshPendingReplacement, [freshPendingReplacement]) ∧
    freshPending.registration_pending = true ∧
    1000 - 300 < freshPending.created_at ∧
    freshPending.email = normalizeEmail "a@x.com" :=
  ⟨by decide, rfl, by decide, by decide⟩

/-- A row with `registration_pending=False` never matches the cleanup
query: every disjunct of the query requires `registration_pending=True`. -/
theorem matchesCleanup_nonpending (now : Int) (e p : Option String)
    (r : UserRecord) (h : r.registration_pending = false) :
    matchesCleanup now e p r = false := by
  unfold matchesCleanup
  simp [h]

/-- A string accepted by `emailFormatOk` is nonempty. -/
theorem emailFormatOk_ne_nil (s : String) (h : emailFormatOk s = true) :
    (s == "") = false := by
  rcases eq_or_ne s "" with rfl | hne
  · exact absurd h (by decide)
  · simp [hne]


/-- When a confirmed (non-pending) row already holds the normalized email,
`create_user` fails with the duplicate-email validation error and the
resulting table is a sublist of the original (rows may have been reclaimed,
none inserted). -/
theorem create_user_dup_email
    (store : List UserRecord) (now : Int) (email : String) (extra : ExtraFields)
    (hne : (email == "") = false)
    (hfmt : emailFormatOk (normalizeEmail email) = true)
    (hph : (extra.phone_number == "") = false)
    (hlen : extra.phone_number.length ≤ 15)
    (r : UserRecord) (hr : r ∈ store) (hrp : r.registration_pending = false)
    (hre : r.email = normalizeEmail email) :
    (create_user store now email extra).1 = .error .duplicateEmail ∧
    (create_user store now email extra).2.Sublist store := by
  have hee : (normalizeEmail email == "") = false := emailFormatOk_ne_nil _ hfmt
  have hrmem : r ∈ (cleanup_expired_registrations store now
      (some (normalizeEmail email)) none).1 := by
    unfold cleanup_expired_registrations
    refine List.mem_filter.mpr ⟨hr, ?_⟩
    rw [matchesCleanup_nonpending now _ _ r hrp]
    rfl
  have hblock : ((cleanup_expired_registrations store now
        (some (normalizeEmail email)) none).1.filter fun x =>
      x.email == normalizeEmail email && x.registration_pending
        && decide (now - 300 < x.created_at)) = [] := by
    rw [List.filter_eq_nil_iff]
    intro x hx hcontra
    unfold cleanup_expired_registrations at hx
    have hxm := (List.mem_filter.mp hx).2
    rw [Bool.not_eq_true'] at hxm
    simp only [Bool.and_eq_true, beq_iff_eq, decide_eq_true_eq] at hcontra
    have hneq : normalizeEmail email ≠ "" := by simpa using hee
    unfold matchesCleanup at hxm
    rw [if_pos (by simp [optTruthy, hneq])] at hxm
    simp [optTruthy, hcontra.1.1, hcontra.1.2] at hxm
    exact absurd hxm.2 hneq
  have hfc : ∀ u : UserRecord, u.email = normalizeEmail email →
      u.phone_number = extra.phone_number →
      full_clean (cleanup_expired_registrations store now
        (some (normalizeEmail email)) none).1 u = some .duplicateEmail := by
    intro u hu hup
    unfold full_clean
    rw [hu, hup, hfmt]
    rw [if_neg (by simp)]
    rw [if_neg (by simp [hph])]
    rw [if_neg (by simpa using hlen)]
    rw [if_pos (List.any_eq_true.mpr ⟨r, hrmem, by simp [hre]⟩)]
  unfold create_user
  rw [if_neg (by simp [hne])]
  simp only [hblock, List.argmax_nil]
  rw [hfc _ rfl rfl]
  exact ⟨rfl, List.filter_sublist store⟩

/-- When no row at all holds the normalized email — in particular even when
a confirmed row holds the requested phone number — `create_user` with no
`registration_pending` override succeeds and returns the new pending row. -/
theorem create_user_fresh_email
    (store : List UserRecord) (now : Int) (email : String) (extra : ExtraFields)
    (hne : (email == "") = false)
    (hfmt : emailFormatOk (normalizeEmail email) = true)
    (hph : (extra.phone_number == "") = false)
    (hlen : extra.phone_number.length ≤ 15)
    (hpend : extra.registration_pending = none)
    (hfree : ∀ r ∈ store, r.email ≠ normalizeEmail email) :
    (create_user store now email extra).1 = .ok
      { email := normalizeEmail email
        phone_number := extra.phone_number
        created_at := now
        is_active := extra.is_active.getD false
        email_verified := extra.email_verified.getD false
        phone_verified := extra.phone_verified.getD false
        registration_pending := true
        is_staff := extra.is_staff.getD false
        is_superuser := extra.is_superuser.getD false
        rating_as_driver := 0
        rating_as_passenger := 0 } := by
  have hfree1 : ∀ x ∈ (cleanup_expired_registrations store now
      (some (normalizeEmail email)) none).1, x.email ≠ normalizeEmail email := by
    intro x hx
    unfold cleanup_expired_registrations at hx
    exact hfree x (List.mem_filter.mp hx).1
  have hblock : ((cleanup_expired_registrations store now
        (some (normalizeEmail email)) none).1.filter fun x =>
      x.email == normalizeEmail email && x.registration_pending
        && decide (now - 300 < x.created_at)) = [] := by
    rw [List.filter_eq_nil_iff]
    intro x hx hcontra
    simp only [Bool.and_eq_true, beq_iff_eq] at hcontra
    exact hfree1 x hx hcontra.1.1
  have hfc : ∀ u : UserRecord, u.email = normalizeEmail email →
      u.phone_number = extra.phone_number → u.registration_pending = true →
      full_clean (cleanup_expired_registrations store now
        (some (normalizeEmail email)) none).1 u = none := by
    intro u hu hup hureg
    unfold full_clean
    rw [hu, hup, hfmt]
    rw [if_neg (by simp)]
    rw [if_neg (by simp [hph])]
    rw [if_neg (by simpa using hlen)]
    rw [if_neg (fun hcontra => by
      rcases List.any_eq_true.mp hcontra with ⟨x, hx, hxe⟩
      exact hfree1 x hx (by simpa using hxe))]
    rw [if_neg (by simp [hureg])]
  unfold create_user
  rw [if_neg (by simp [hne])]
  simp only [hblock, List.argmax_nil]
  rw [hfc _ rfl rfl
    (show extra.registration_pending.getD true = true by rw [hpend] ; rfl)]
  rw [hpend]
  rfl

/-- A confirmed (non-pending) account owning the phone number `777`. -/
def activePhoneOwner : UserRecord :=
  { email := "b@x.com", phone_number := "777", created_at := 0,
    is_active := true, email_verified := true, phone_verified := true,
    registration_pending := false, is_staff := false, is_superuser := false,
    rating_as_driver := 0, rating_as_passenger := 0 }

/-- A confirmed (non-pending) account owning the email `a@x.com`. -/
def activeEmailOwner : UserRecord :=
  { email := "a@x.com", phone_number := "999", created_at := 0,
    is_active := true, email_verified := true, phone_verified := true,
    registration_pending := false, is_staff := false, is_superuser := false,
    rating_as_driver := 0, rating_as_passenger := 0 }

/-- The pending row `create_user` inserts for `a@x.com` with phone `777` at
instant 1000. -/
def pendingRow777 : UserRecord :=
  { email := "a@x.com", phone_number := "777", created_at := 1000,
    is_active := false, email_verified := false, phone_verified := false,
    registration_pending := true, is_staff := false, is_superuser := false,
    rating_as_driver := 0, rating_as_passenger := 0 }

/-- Counterexample for claim C8: with a confirmed account already holding
phone number `777`, `create_user` for a fresh email and that same phone
number succeeds and inserts a new pending row — no duplicate-account error
guards the phone: the conditional constraint `unique_verified_phone` only
binds rows with `registration_pending=False`, and the new row is pending. -/
theorem create_user_phone_collision_allowed :
    create_user [activePhoneOwner] 1000 "a@x.com"
        { noExtras with phone_number := "777" }
      = (.ok pendingRow777, [activePhoneOwner, pendingRow777]) ∧
    activePhoneOwner.registration_pending = false ∧
    activePhoneOwner.phone_number = "777" :=
  ⟨by decide, rfl, rfl⟩

/-- Claim C8 (amended): a confirmed record holding the EMAIL does make
`create_user` fail with the duplicate-account error with nothing inserted;
but a confirmed record holding only the PHONE NUMBER does not block the
call — the new pending row is created regardless of who owns the phone. -/
theorem duplicate_active_email_blocks_phone_does_not :
    (∀ (store : List UserRecord) (now : Int) (email : String)
        (extra : ExtraFields) (r : UserRecord),
      (email == "") = false →
      emailFormatOk (normalizeEmail email) = true →
      (extra.phone_number == "") = false →
      extra.phone_number.length ≤ 15 →
      r ∈ store → r.registration_pending = false →
      r.email = normalizeEmail email →
      (create_user store now email extra).1 = .error .duplicateEmail ∧
      (create_user store now email extra).2.Sublist store) ∧
    (∀ (store : List UserRecord) (now : Int) (email : String)
        (extra : ExtraFields),
      (email == "") = false →
      emailFormatOk (normalizeEmail email) = true →
      (extra.phone_number == "") = false →
      extra.phone_number.length ≤ 15 →
      extra.registration_pending = none →
      (∀ r ∈ store, r.email ≠ normalizeEmail email) →
      (∃ r ∈ store, r.registration_pending = false ∧
        r.phone_number = extra.phone_number) →
      (create_user store now email extra).1 = .ok
        { email := normalizeEmail email,
          phone_number := extra.phone_number,
          created_at := now,
          is_active := extra.is_active.getD false,
          email_verified := extra.email_verified.getD false,
          phone_verified := extra.phone_verified.getD false,
          registration_pending := true,
          is_staff := extra.is_staff.getD false,
          is_superuser := extra.is_superuser.getD false,
          rating_as_driver := 0,
          rating_as_passenger := 0 }) :=
  ⟨fun store now email extra r hne hfmt hph hlen hr hrp hre =>
    create_user_dup_email store now email extra hne hfmt hph hlen r hr hrp hre,
   fun store now email extra hne hfmt hph hlen hpend hfree _ =>
    create_user_fresh_email store now email extra hne hfmt hph hlen hpend hfree⟩

/-- Witness for C8: the email half on a table where a confirmed account owns
`a@x.com`, the phone half on a table where a confirmed account owns `777`. -/
theorem duplicate_active_witness :
    ((create_user [activeEmailOwner] 1000 "a@x.com"
        { noExtras with phone_number := "222" }).1
      = .error .duplicateEmail) ∧
    ((create_user [activePhoneOwner] 1000 "a@x.com"
        { noExtras with phone_number := "777" }).1
      = .ok pendingRow777) :=
  ⟨(duplicate_active_email_blocks_phone_does_not.1
      [activeEmailOwner] 1000 "a@x.com" { noExtras with phone_number := "222" }
      activeEmailOwner
      (by decide) (by decide) (by decide) (by decide)
      (by simp) rfl (by decide)).1,
   duplicate_active_email_blocks_phone_does_not.2
      [activePhoneOwner] 1000 "a@x.com" { noExtras with phone_number := "777" }
      (by decide) (by decide) (by decide) (by decide) rfl
      (by decide)
      ⟨activePhoneOwner, by simp, rfl, rfl⟩⟩

/-- Claim C10: an account created through `create_superuser` with no
explicit `registration_pending` (and no explicit `is_active`) ends with
`is_active=true` AND `registration_pending=true`: `create_superuser`
defaults `is_active` to true while `create_user` only `setdefault`s
`registration_pending=True`, and nothing enforces that an active account is
non-pending. -/
theorem superuser_active_and_pending
    (store : List UserRecord) (now : Int) (email : String)
    (extra : ExtraFields) (u : UserRecord) (s2 : List UserRecord)
    (hrp : extra.registration_pending = none) (hia : extra.is_active = none)
    (h : create_superuser store now email extra = (.ok u, s2)) :
    u.is_active = true ∧ u.registration_pending = true := by
  simp only [create_superuser, create_user, hia, hrp] at h
  split at h
  · exact absurd (congrArg Prod.fst h) (by simp)
  split at h
  · exact absurd (congrArg Prod.fst h) (by simp)
  split at h
  · exact absurd (congrArg Prod.fst h) (by simp)
  split at h
  · exact absurd (congrArg Prod.fst h) (by simp)
  split at h
  · exact absurd (congrArg Prod.fst h) (by simp)
  have hu := congrArg Prod.fst h
  simp only [Except.ok.injEq] at hu
  rw [← hu]
  exact ⟨rfl, rfl⟩

/-- The row `create_superuser` inserts for `root@x.com` at instant 1000. -/
def rootSuper : UserRecord :=
  { email := "root@x.com", phone_number := "111", created_at := 1000,
    is_active := true, email_verified := false, phone_verified := false,
    registration_pending := true, is_staff := true, is_superuser := true,
    rating_as_driver := 0, rating_as_passenger := 0 }

/-- Witness for C10: a concrete superuser creation on an empty table. -/
theorem superuser_active_and_pending_witness :
    create_superuser [] 1000 "root@x.com" { noExtras with phone_number := "111" }
      = (.ok rootSuper, [rootSuper]) ∧
    rootSuper.is_active = true ∧ rootSuper.registration_pending = true :=
  ⟨by decide,
   superuser_active_and_pending [] 1000 "root@x.com"
     { noExtras with phone_number := "111" } rootSuper [rootSuper]
     rfl rfl (by decide)⟩

/-- Ride lifecycle states, from `RideDetails.STATUS_CHOICES` in
`rides/models.py`. -/
inductive RideStatus where
  | PENDING
  | ONGOING
  | COMPLETED
  | CANCELLED
deriving DecidableEq, Repr

/-- One row of the `RideDetails` table (`rides/models.py`), restricted to
the fields the claims under verification touch; `id` is the primary key,
`driver` the user foreign key. -/
structure RideRec where
  id : Nat
  driver : Nat
  available_seats : Nat
  status : RideStatus
deriving DecidableEq, Repr

/-- One row of the `Rating` table (`rides/models.py`): the ride foreign
key, rater, ratee, and the 1–5 score. -/
structure RatingRec where
  ride : Nat
  from_user : Nat
  to_user : Nat
  score : Int
  created_at : Int
deriving DecidableEq, Repr

/-- The rides side of the store: the `RideDetails` and `Rating` tables. -/
structure RideState where
  rides : List RideRec
  ratings : List RatingRec
deriving DecidableEq, Repr

/-- What a `Rating` insert must satisfy to commit: the `MinValueValidator(1)`
/ `MaxValueValidator(5)` on `score` (run by `full_clean`, which the saving
callers are specified to run), the `unique_together = [ride, from_user,
to_user]` constraint, and the `ride` foreign key. -/
def ratingInsertOk (st : RideState) (rt : RatingRec) : Prop :=
  (∃ rd ∈ st.rides, rd.id = rt.ride) ∧
  1 ≤ rt.score ∧ rt.score ≤ 5 ∧
  ∀ o ∈ st.ratings,
    ¬(o.ride = rt.ride ∧ o.from_user = rt.from_user ∧ o.to_user = rt.to_user)

instance (st : RideState) (rt : RatingRec) : Decidable (ratingInsertOk st rt) := by
  unfold ratingInsertOk
  infer_instance

/-- States of the rides store reachable through its operations: rides may be
added and deleted (deleting a ride cascades to its ratings,
`on_delete=CASCADE`); ratings commit only when `ratingInsertOk` holds and
may be deleted freely. -/
inductive RideReachable : RideState → Prop where
  | empty : RideReachable ⟨[], []⟩
  | addRide (st : RideState) (rd : RideRec) :
      RideReachable st → RideReachable ⟨rd :: st.rides, st.ratings⟩
  | deleteRide (st : RideState) (i : Nat) :
      RideReachable st →
      RideReachable ⟨st.rides.filter (fun rd => rd.id != i),
                     st.ratings.filter (fun rt => rt.ride != i)⟩
  | addRating (st : RideState) (rt : RatingRec) :
      RideReachable st → ratingInsertOk st rt →
      RideReachable ⟨st.rides, rt :: st.ratings⟩
  | deleteRatings (st : RideState) (p : RatingRec → Bool) :
      RideReachable st → RideReachable ⟨st.rides, st.ratings.filter p⟩

/-- Integrity of the `Rating` table: pairwise-distinct
(ride, from_user, to_user) key triples, every rating pointing at an
existing ride, and every score within 1–5. -/
def ratingsOk (st : RideState) : Prop :=
  st.ratings.Pairwise (fun a b =>
    ¬(a.ride = b.ride ∧ a.from_user = b.from_user ∧ a.to_user = b.to_user)) ∧
  ∀ rt ∈ st.ratings,
    (∃ rd ∈ st.rides, rd.id = rt.ride) ∧ 1 ≤ rt.score ∧ rt.score ≤ 5

/-- Claim C9: at every reachable rides-store state, at most one `Rating`
exists per (ride, from_user, to_user) triple, and every rating references
an existing ride and carries a score between 1 and 5. -/
theorem rating_integrity (st : RideState) (h : RideReachable st) :
    ratingsOk st := by
  induction h with
  | empty =>
      refine ⟨List.Pairwise.nil, ?_⟩
      intro rt hrt
      cases hrt
  | addRide st rd hst ih =>
      refine ⟨ih.1, ?_⟩
      intro rt hrt
      obtain ⟨⟨rd0, hrd0, he⟩, hs⟩ := ih.2 rt hrt
      exact ⟨⟨rd0, List.mem_cons_of_mem _ hrd0, he⟩, hs⟩
  | deleteRide st i hst ih =>
      refine ⟨ih.1.sublist (List.filter_sublist _), ?_⟩
      intro rt hrt
      obtain ⟨hmem, hfilt⟩ := List.mem_filter.mp hrt
      obtain ⟨⟨rd0, hrd0, he⟩, hs⟩ := ih.2 rt hmem
      refine ⟨⟨rd0, List.mem_filter.mpr ⟨hrd0, ?_⟩, he⟩, hs⟩
      rw [he]
      exact hfilt
  | addRating st rt hst hok ih =>
      constructor
      · exact List.Pairwise.cons
          (fun o ho hcontra =>
            hok.2.2.2 o ho ⟨hcontra.1.symm, hcontra.2.1.symm, hcontra.2.2.symm⟩)
          ih.1
      · intro x hx
        rcases List.mem_cons.mp hx with rfl | hx'
        · exact ⟨hok.1, hok.2.1, hok.2.2.1⟩
        · exact ih.2 x hx'
  | deleteRatings st p hst ih =>
      refine ⟨ih.1.sublist (List.filter_sublist _), ?_⟩
      intro rt hrt
      exact ih.2 rt (List.mem_filter.mp hrt).1

/-- A concrete ride and a rating given on it. -/
def sampleRide : RideRec :=
  { id := 1, driver := 5, available_seats := 3, status := .PENDING }

/-- See `sampleRide`. -/
def sampleRating : RatingRec :=
  { ride := 1, from_user := 6, to_user := 5, score := 4, created_at := 0 }

/-- Witness for C9: a store built by adding a ride and then rating it. -/
theorem rating_integrity_witness :
    ratingsOk ⟨[sampleRide], [sampleRating]⟩ :=
  rating_integrity ⟨[sampleRide], [sampleRating]⟩
    (.addRating ⟨[sampleRide], []⟩ sampleRating
      (.addRide ⟨[], []⟩ sampleRide .empty) (by decide))

/-- A concrete OTP: unverified, one attempt used, created at instant 0. -/
def sampleOtp : OTPRec :=
  { user := 1, code := "123456", created_at := 0,
    is_verified := false, attempts := 1, otype := .EMAIL }

/-- Witness for C6: the validity test evaluated on `sampleOtp` at instant
300. -/
theorem is_valid_iff_witness :
    sampleOtp.is_valid 300 = true ↔
      sampleOtp.is_verified = false ∧ sampleOtp.attempts < 3 ∧
        (300 : Int) - sampleOtp.created_at ≤ 600 :=
  is_valid_iff sampleOtp 300
